import Mathlib

/-!
Shallow embedding of the sigap-ai traffic-signal core (Python) in Lean 4.

Embedded modules:
* `src/sim/controller.py`   — `SignalController` (fixed-cycle green allocation)
* `src/sim/intersection.py` — queue dynamics of `IntersectionSim.step`
* `src/sim/demand.py`       — seeded demand generator (noise source abstracted)
* `src/sim/timeline.py`     — `TimelineBuffer.last`
* `src/rec/rules.py`        — rule-engine `evaluate` and helpers
* `src/rec/safety.py`       — `clamp_green_seconds`
* `src/rec/recommender.py`  — `generate_top_recommendations` and the advisory
* `src/app/failsafe.py`     — `check_failsafe`

Python integers are modelled as `ℤ`, Python floats as `ℚ` (exact rational
arithmetic standing in for IEEE doubles), `round` as banker's rounding
(`pyRound`), `int(·)` on non-negative values as floor (`pyTrunc`), and
`dict` iteration follows the fixed insertion order `[N, E, S, W]` used
throughout the source.
-/

/-- The four approaches of an intersection, `_APPROACHES = ["N","E","S","W"]`
in `src/sim/controller.py`. -/
inductive Approach : Type
  | N
  | E
  | S
  | W
deriving DecidableEq, Repr

/-- Fixed iteration order of the approach dictionaries in the source. -/
def approachOrder : List Approach := [Approach.N, Approach.E, Approach.S, Approach.W]

/-- Python's built-in `round` (banker's rounding, ties to even) on exact
rationals. -/
def pyRound (x : ℚ) : ℤ :=
  if x - (⌊x⌋ : ℚ) < 1/2 then ⌊x⌋
  else if 1/2 < x - (⌊x⌋ : ℚ) then ⌊x⌋ + 1
  else if ⌊x⌋ % 2 = 0 then ⌊x⌋ else ⌊x⌋ + 1

/-- Python's `int(·)` conversion (truncation toward zero) on exact
rationals. -/
def pyTrunc (x : ℚ) : ℤ :=
  if 0 ≤ x then ⌊x⌋ else -⌊-x⌋

/-! Section Configuration constants, `src/core/config.py` -/

def CYCLE_SECONDS : ℤ := 90

def MIN_GREEN_SECONDS : ℤ := 20

def MAX_GREEN_SECONDS : ℤ := 70

def CLEARANCE_SECONDS : ℤ := 5

/-- Source `YELLOW_SECONDS = CLEARANCE_SECONDS` in `src/sim/controller.py`. -/
def YELLOW_SECONDS : ℤ := CLEARANCE_SECONDS

def CONGESTION_ALERT_CAPACITY_PERCENT : ℚ := 80

def SIM_MINUTES_PER_TICK : ℚ := 1

def SENSOR_STALE_SECONDS : ℚ := 60

/-- Source `DEFAULT_GREEN_SECONDS = {"N": 45, "E": 20, "S": 45, "W": 20}`. -/
def DEFAULT_GREEN_SECONDS : Approach → ℤ
  | Approach.N => 45
  | Approach.E => 20
  | Approach.S => 45
  | Approach.W => 20

/-! Section SignalController, `src/sim/controller.py` -/

/-- Controller state: a baseline plan (immutable) and the current plan,
both mapping each approach to its green seconds. -/
structure SignalController where
  baseline : Approach → ℤ
  current : Approach → ℤ

/-- Constructor `SignalController(baseline)`: both maps start as copies of
the baseline dict (`_validate_cycle` is a no-op: its body is `pass`). -/
def SignalController.init (b : Approach → ℤ) : SignalController :=
  { baseline := b, current := b }

/-- The default-constructed controller, `SignalController()` with
`DEFAULT_GREEN_SECONDS`. -/
def defaultController : SignalController :=
  SignalController.init DEFAULT_GREEN_SECONDS

/-- Sum of the four current greens, `sum(self._current.values())`. -/
def sumGreens (g : Approach → ℤ) : ℤ :=
  g Approach.N + g Approach.E + g Approach.S + g Approach.W

/-- One entry of the plan dict returned by `get_plan`. -/
structure PhasePlan where
  greenSeconds : ℤ
  yellowSeconds : ℤ
  redSeconds : ℤ
deriving DecidableEq, Repr

/-- Source `SignalController.get_plan`: per-approach green/yellow/red. -/
def SignalController.getPlan (c : SignalController) : Approach → PhasePlan :=
  fun a =>
    { greenSeconds := c.current a
      yellowSeconds := YELLOW_SECONDS
      redSeconds := max 0 (sumGreens c.current - c.current a + YELLOW_SECONDS * 3) }

/-- Source `SignalController.revert_baseline`: reset current to baseline. -/
def SignalController.revertBaseline (c : SignalController) : SignalController :=
  { c with current := fun a => c.baseline a }

/-- The `others` list for a target approach (the other three, in fixed
order). -/
def othersOf (app : Approach) : List Approach :=
  approachOrder.filter (fun a => a ≠ app)

/-- Feasibility test from the body of `SignalController._clamp_delta`:
candidate delta `d` keeps the target within clamps and every other
approach, after absorbing `-d` in proportion to its green share, rounds
into the clamps as well. -/
def feasibleDelta (cur : Approach → ℤ) (app : Approach) (othersTotal : ℤ) (d : ℤ) : Bool :=
  let newTarget := cur app + d
  if MIN_GREEN_SECONDS ≤ newTarget ∧ newTarget ≤ MAX_GREEN_SECONDS then
    let tw : ℚ := if othersTotal > 0 then (othersTotal : ℚ) else 1
    (othersOf app).all fun a =>
      let raw : ℚ := (cur a : ℚ) - (d : ℚ) * ((cur a : ℚ) / tw)
      decide (MIN_GREEN_SECONDS ≤ pyRound raw ∧ pyRound raw ≤ MAX_GREEN_SECONDS)
  else
    false

/-- Descending search of `_clamp_delta`'s loop
`for abs_d in range(max_abs, 0, -1)`: try magnitudes `n, n-1, …, 1` with
the requested sign and return the first feasible one, else 0. -/
def searchDelta (cur : Approach → ℤ) (app : Approach) (othersTotal : ℤ) (sign : ℤ) :
    ℕ → ℤ
  | 0 => 0
  | n + 1 =>
    if feasibleDelta cur app othersTotal (sign * (n + 1)) then sign * (n + 1)
    else searchDelta cur app othersTotal sign n

/-- Source `SignalController._clamp_delta`: the largest feasible delta of the
requested sign with magnitude at most the request, or 0. -/
def clampDelta (cur : Approach → ℤ) (app : Approach) (othersTotal : ℤ) (delta : ℤ) : ℤ :=
  if delta = 0 then 0
  else
    let sign : ℤ := if delta > 0 then 1 else -1
    searchDelta cur app othersTotal sign delta.natAbs

/-- Clamp a rational into `[lo, hi]`, `max(lo, min(hi, x))`. -/
def clampQ (lo hi x : ℚ) : ℚ := max lo (min hi x)

/-- Clamp an integer green into `[MIN_GREEN_SECONDS, MAX_GREEN_SECONDS]`. -/
def clampZ (x : ℤ) : ℤ := max MIN_GREEN_SECONDS (min MAX_GREEN_SECONDS x)

/-- Source `SignalController._enforce_cycle`: nudge the priority approach by the
cycle drift, clamped into the green bounds. -/
def SignalController.enforceCycle (c : SignalController) (pa : Approach) : SignalController :=
  let total := sumGreens c.current
  let targetTotal := CYCLE_SECONDS - YELLOW_SECONDS * 4
  let drift := total - targetTotal
  if drift = 0 then c
  else
    { c with
      current := fun a => if a = pa then clampZ (c.current pa - drift) else c.current a }

/-- The body of `SignalController.apply_adjustment` after the
known-approach check: clamp the delta, proportionally distribute its
inverse over the other approaches (rounded and clamped), reconcile the
target with the actually-taken total, and run `_enforce_cycle`. -/
def SignalController.applyKnown (c : SignalController) (app : Approach) (deltaReq : ℤ) :
    SignalController :=
  let others := othersOf app
  let othersTotal := (others.map c.current).sum
  let delta := clampDelta c.current app othersTotal deltaReq
  if delta = 0 then c
  else
    let tw : ℚ := if othersTotal > 0 then (othersTotal : ℚ) else 1
    let newOthers : Approach → ℤ := fun a =>
      pyRound (clampQ (MIN_GREEN_SECONDS : ℚ) (MAX_GREEN_SECONDS : ℚ)
        ((c.current a : ℚ) + (-(delta : ℚ)) * ((c.current a : ℚ) / tw)))
    let actualTaken : ℤ := (others.map (fun a => c.current a - newOthers a)).sum
    let newTarget := clampZ (c.current app + actualTaken)
    let c1 : SignalController :=
      { c with current := fun a => if a = app then newTarget else newOthers a }
    c1.enforceCycle app

/-- Parse an approach name string, the membership test
`approach not in _APPROACHES`. -/
def parseApproach (s : String) : Option Approach :=
  if s = "N" then some Approach.N
  else if s = "E" then some Approach.E
  else if s = "S" then some Approach.S
  else if s = "W" then some Approach.W
  else none

/-- Source `SignalController.apply_adjustment(approach, delta_seconds)`: raises
`ValueError` for an unknown approach name (before touching any state),
otherwise runs the adjustment and returns the updated plan. The pair
carries the call's outcome and the post-call controller state. -/
def SignalController.applyAdjustment (c : SignalController) (s : String) (delta : ℤ) :
    Except String (Approach → PhasePlan) × SignalController :=
  match parseApproach s with
  | none => (Except.error "Unknown approach", c)
  | some app =>
    let c1 := c.applyKnown app delta
    (Except.ok c1.getPlan, c1)

/-- An externally triggered controller mutation: a (possibly invalid)
adjustment request or a baseline revert. -/
inductive ControllerOp : Type
  | adjust (s : String) (delta : ℤ)
  | revert

/-- Execute one mutation on the controller state. -/
def execOp (c : SignalController) : ControllerOp → SignalController
  | ControllerOp.adjust s delta => (c.applyAdjustment s delta).2
  | ControllerOp.revert => c.revertBaseline

/-- Execute a sequence of mutations, oldest first. -/
def execOps (c : SignalController) (ops : List ControllerOp) : SignalController :=
  ops.foldl execOp c

/-! Section Queue dynamics, `src/sim/intersection.py` -/

/-- Source `LANES = {"N": 3, "E": 2, "S": 3, "W": 2}` from `src/sim/config.py`. -/
def LANES : Approach → ℤ
  | Approach.N => 3
  | Approach.E => 2
  | Approach.S => 3
  | Approach.W => 2

/-- Source `SAT_FLOW_VEH_PER_HOUR_PER_LANE = 1900` from `src/sim/config.py`. -/
def SAT_FLOW_VEH_PER_HOUR_PER_LANE : ℤ := 1900

/-- Source `_QUEUE_HARD_CAP_PER_APPROACH = 120`. -/
def QUEUE_HARD_CAP_PER_APPROACH : ℤ := 120

/-- Source `_service_capacity(approach, green_seconds)`: maximum vehicles that can
depart through the approach in one tick. -/
def serviceCapacity (a : Approach) (greenSeconds : ℤ) : ℚ :=
  (SAT_FLOW_VEH_PER_HOUR_PER_LANE : ℚ) * (LANES a : ℚ) *
    ((greenSeconds : ℚ) / (CYCLE_SECONDS : ℚ)) * SIM_MINUTES_PER_TICK / 60

/-- The per-approach queue update in `IntersectionSim.step`:
`demand = queue + arrivals`, `dep = int(min(demand, capacity))`,
`queue' = min(hard_cap, max(0, demand - dep))`. The greens are read from
the controller's plan at the start of the tick and are an input here. -/
def stepQueue (q arrivals greens : Approach → ℤ) : Approach → ℤ :=
  fun a =>
    let capacity := serviceCapacity a (greens a)
    let demand := q a + arrivals a
    let dep := pyTrunc (min (demand : ℚ) capacity)
    min QUEUE_HARD_CAP_PER_APPROACH (max 0 (demand - dep))

/-- Queue state after feeding a sequence of ticks (each tick carries that
tick's arrivals and the plan greens in force) to `IntersectionSim.step`. -/
def runQueue (q : Approach → ℤ) : List ((Approach → ℤ) × (Approach → ℤ)) → Approach → ℤ
  | [] => q
  | t :: ts => runQueue (stepQueue q t.1 t.2) ts

/-- The initial queue state of `IntersectionSim`: all zero. -/
def zeroQueue : Approach → ℤ := fun _ => 0

/-! Section Demand generator, `src/sim/demand.py`

The per-approach means and the state-threading of the instance-local
`random.Random(seed)` are embedded exactly; the two float-valued
primitives that cannot be represented exactly — `random.gauss` (Gaussian
noise driven by the Mersenne-Twister state) and `_ramp_factor` (the raised
cosine) — are abstracted as explicit deterministic function parameters
`gauss` (which threads the generator state, covering `gauss`'s cached
second sample) and `rampF`. -/

/-- Source `_BASE_PEAK_ARRIVALS = {"N": 28.0, "E": 14.0, "S": 28.0, "W": 14.0}`. -/
def BASE_PEAK_ARRIVALS : Approach → ℚ
  | Approach.N => 28
  | Approach.E => 14
  | Approach.S => 28
  | Approach.W => 14

/-- Source `_OFF_PEAK_FRACTION = 0.35`. -/
def OFF_PEAK_FRACTION : ℚ := 35/100

/-- Source `_NOISE_FRACTION = 0.12`. -/
def NOISE_FRACTION : ℚ := 12/100

/-- Source `DemandProfile` holds exactly one piece of state: its own
`random.Random` instance, whose abstract state has type `σ`. -/
structure DemandProfile (σ : Type) where
  rng : σ

/-- Source `DemandProfile.get_arrivals(tick)`: for each approach in dict order,
compute the ramped mean, draw one noise sample (threading the generator
state), and emit `max(0, round(mean + noise))`. Returns the advanced
profile and the arrivals map. -/
def getArrivals {σ : Type} (gauss : σ → ℚ → σ × ℚ) (rampF : ℕ → ℚ)
    (p : DemandProfile σ) (tick : ℕ) : DemandProfile σ × (Approach → ℤ) :=
  let ramp := rampF tick
  let r := approachOrder.foldl
    (fun (acc : σ × (Approach → ℤ)) (a : Approach) =>
      let peak := BASE_PEAK_ARRIVALS a
      let mean := OFF_PEAK_FRACTION * peak + ramp * (1 - OFF_PEAK_FRACTION) * peak
      let drawn := gauss acc.1 (NOISE_FRACTION * mean)
      let raw := mean + drawn.2
      (drawn.1, fun b => if b = a then max 0 (pyRound raw) else acc.2 b))
    (p.rng, fun _ => 0)
  (⟨r.1⟩, r.2)

/-- Arrival maps produced by querying one `DemandProfile` instance with a
tick sequence, threading the generator state between calls. -/
def runArrivals {σ : Type} (gauss : σ → ℚ → σ × ℚ) (rampF : ℕ → ℚ)
    (p : DemandProfile σ) : List ℕ → List (Approach → ℤ)
  | [] => []
  | t :: ts =>
    let r := getArrivals gauss rampF p t
    r.2 :: runArrivals gauss rampF r.1 ts

/-! Section Timeline buffer, `src/sim/timeline.py` -/

/-- Python slice `l[i:]` for an integer index `i` (negative indices count
from the end; a negative index beyond the start yields the whole list). -/
def pySliceFrom {α : Type} (l : List α) (i : ℤ) : List α :=
  if 0 ≤ i then l.drop i.toNat else l.drop ((l.length + i).toNat)

/-- Source `TimelineBuffer.last(n)`: `points[-n:] if n < len(points) else points`.
The buffer contents are the list `l`, oldest first. -/
def timelineLast {α : Type} (l : List α) (n : ℕ) : List α :=
  if n < l.length then pySliceFrom l (-(n : ℤ)) else l

/-! Section Rule engine, `src/rec/rules.py` and `src/rec/safety.py` -/

/-- Source `_MAX_DELTA = 20` in `src/rec/rules.py`. -/
def MAX_DELTA : ℤ := 20

/-- Source `clamp_green_seconds` from `src/rec/safety.py`. -/
def clampGreenSeconds (v : ℤ) : ℤ :=
  max MIN_GREEN_SECONDS (min MAX_GREEN_SECONDS v)

/-- Total queue, `sum(queue_per_approach.values())`. -/
def totalQueue (q : Approach → ℤ) : ℤ :=
  q Approach.N + q Approach.E + q Approach.S + q Approach.W

/-- Value of `max(queue_per_approach.values())` for the four-key queue
dict. -/
def maxQueue (q : Approach → ℤ) : ℤ :=
  max (q Approach.N) (max (q Approach.E) (max (q Approach.S) (q Approach.W)))

/-- First step of Python's `max(keys, key=...)` scan: best of N, E. -/
def argmaxNE (q : Approach → ℤ) : Approach :=
  if q Approach.E > q Approach.N then Approach.E else Approach.N

/-- Second step of the scan: best of N, E, S. -/
def argmaxNES (q : Approach → ℤ) : Approach :=
  if q Approach.S > q (argmaxNE q) then Approach.S else argmaxNE q

/-- Python's `max(queue_per_approach, key=...)` over the keys in dict
order N, E, S, W: the first key attaining the maximum (later keys replace
the best only on a strictly greater value). -/
def argmaxFirst (q : Approach → ℤ) : Approach :=
  if q Approach.W > q (argmaxNES q) then Approach.W else argmaxNES q

/-- Source `_select_target_approach`: prefer `"S"` when it attains the maximum
queue, otherwise the first key with the maximal queue. (The queue dict
always carries the four approaches, so the empty-dict branch is
unreachable here.) -/
def selectTargetApproach (q : Approach → ℤ) : Approach :=
  if q Approach.S = maxQueue q then Approach.S else argmaxFirst q

/-- Source `_proportional_delta(queue_approach, total_queue)`:
`max(1, min(_MAX_DELTA, round(_MAX_DELTA * queue_approach / max(1, total_queue))))`. -/
def proportionalDelta (queueApproach : ℤ) (total : ℤ) : ℤ :=
  max 1 (min MAX_DELTA
    (pyRound ((MAX_DELTA : ℚ) * (queueApproach : ℚ) / ((max 1 total : ℤ) : ℚ))))

/-- Source `_predicted_delay(total_queue, departures_per_tick)`, rounded to one
decimal place (banker's rounding at the second decimal). -/
def predictedDelay (total : ℤ) (departuresPerTick : ℚ) : ℚ :=
  (pyRound ((total : ℚ) / max 1 departuresPerTick * SIM_MINUTES_PER_TICK * 10) : ℚ) / 10

/-- The fields of a produced recommendation used by the claims.
String/identifier fields built from `uuid` and wall-clock timestamps are
outside the embedding. -/
structure RecOut where
  targetIntersectionId : String
  targetApproach : Approach
  currentGreenSeconds : ℤ
  recommendedGreenSeconds : ℤ
  deltaSeconds : ℤ
  predictedDelayMinutes : ℚ
  confidencePercent : ℚ
deriving DecidableEq, Repr

/-- The recommendation record built in the above-threshold branch of
`evaluate`: target the selected approach, clamp `currentGreen + delta`,
and report the post-clamp difference as the delta. -/
def evalRec (intersectionId : String) (queuePerApproach : Approach → ℤ)
    (currentGreens : Approach → ℤ) (departuresPerTick : ℚ) (confidencePercent : ℚ) :
    RecOut :=
  { targetIntersectionId := intersectionId
    targetApproach := selectTargetApproach queuePerApproach
    currentGreenSeconds := currentGreens (selectTargetApproach queuePerApproach)
    recommendedGreenSeconds :=
      clampGreenSeconds (currentGreens (selectTargetApproach queuePerApproach) +
        proportionalDelta (queuePerApproach (selectTargetApproach queuePerApproach))
          (totalQueue queuePerApproach))
    deltaSeconds :=
      clampGreenSeconds (currentGreens (selectTargetApproach queuePerApproach) +
        proportionalDelta (queuePerApproach (selectTargetApproach queuePerApproach))
          (totalQueue queuePerApproach)) -
        currentGreens (selectTargetApproach queuePerApproach)
    predictedDelayMinutes := predictedDelay (totalQueue queuePerApproach) departuresPerTick
    confidencePercent := confidencePercent }

/-- Source `evaluate(...)` from `src/rec/rules.py`: `None` below the alert
threshold, otherwise the recommendation record. -/
def evaluate (intersectionId : String) (densityPercent : ℚ) (queuePerApproach : Approach → ℤ)
    (currentGreens : Approach → ℤ) (departuresPerTick : ℚ) (confidencePercent : ℚ) :
    Option RecOut :=
  if densityPercent < CONGESTION_ALERT_CAPACITY_PERCENT then none
  else some (evalRec intersectionId queuePerApproach currentGreens departuresPerTick
    confidencePercent)

/-! Section Recommender, `src/rec/recommender.py` -/

/-- Source `DEFAULT_SYSTEM_CONFIDENCE_PERCENT = 95`. -/
def DEFAULT_SYSTEM_CONFIDENCE_PERCENT : ℚ := 95

/-- The loosely-typed `currentSignalPlan` dict: either the per-approach
shape, the flat shape, or neither (shape-sniffed by `_extract_greens`). -/
inductive PlanShape : Type
  | perApproach (g : Approach → ℤ)
  | flat (g : ℤ)
  | neither

/-- The fields of `IntersectionSummary` the recommender reads. -/
structure Summary where
  intersectionId : String
  currentSignalPlan : PlanShape

/-- The fields of `LiveMetrics` the recommender reads. -/
structure Live where
  queueLengthVehicles : ℤ
  densityPercent : ℚ
  flowRateCarsPerMin : ℚ
  waitTimeMinutes : ℚ

/-- The slice of the `StateStore` the recommender reads: the intersection
list (dict-value order), live metrics, latest 15-minute-prediction
confidence, and the optional `queuePerApproach` snapshot entry (the
store's `get_snapshot` in `src/app/state_store.py` never actually carries
that key, so in the running system it is always `none`). -/
structure Store where
  intersections : List Summary
  live : String → Option Live
  predConfidence : String → Option ℚ
  queuePerApproach : String → Option (Approach → ℤ)

/-- Source `_get_queue_per_approach`: snapshot queues if present, otherwise the
lane-weight split `{"N": 3, "E": 2, "S": 3, "W": 2}` of the total. -/
def getQueuePerApproach (st : Store) (iid : String) (total : ℤ) : Approach → ℤ :=
  match st.queuePerApproach iid with
  | some q => q
  | none =>
    let w : Approach → ℤ := fun a => LANES a
    fun a => pyRound ((total : ℚ) * (w a : ℚ) / 10)

/-- Source `_extract_greens`: per-approach shape read directly, flat shape
broadcast to every approach, otherwise `DEFAULT_GREEN_SECONDS`. -/
def extractGreens (plan : PlanShape) : Approach → ℤ :=
  match plan with
  | PlanShape.perApproach g => g
  | PlanShape.flat g => fun _ => g
  | PlanShape.neither => DEFAULT_GREEN_SECONDS

/-- Confidence for an intersection: the latest 15-minute prediction's
confidence if available, else the default. -/
def confidenceOf (st : Store) (iid : String) : ℚ :=
  match st.predConfidence iid with
  | some c => c
  | none => DEFAULT_SYSTEM_CONFIDENCE_PERCENT

/-- A candidate recommendation with the internal `_density` / `_queue`
sort keys. -/
structure Candidate where
  recOut : RecOut
  density : ℚ
  queue : ℤ

/-- Candidate ordering of `candidates.sort(key=..., reverse=True)`:
descending lexicographically by (density, queue). -/
def candBefore (a b : Candidate) : Bool :=
  decide (b.density < a.density ∨ (b.density = a.density ∧ b.queue ≤ a.queue))

/-- Stable insertion of a candidate in descending key order (an element
moves past another only when its key is strictly greater, so equal keys
keep their original relative order — the observable behaviour of Python's
stable `list.sort` with `reverse=True`). -/
def insertCand (x : Candidate) : List Candidate → List Candidate
  | [] => [x]
  | y :: ys => if candBefore x y then x :: y :: ys else y :: insertCand x ys

/-- Stable sort of the candidate list by descending (density, queue). -/
def sortCands : List Candidate → List Candidate
  | [] => []
  | x :: xs => insertCand x (sortCands xs)

/-- The candidate produced for one intersection inside the loop of
`generate_top_recommendations` (`None` when the intersection has no live
metrics yet or `evaluate` declines). -/
def candidateFor (st : Store) (s : Summary) : Option Candidate :=
  match st.live s.intersectionId with
  | none => none
  | some live =>
    let qpa := getQueuePerApproach st s.intersectionId live.queueLengthVehicles
    let greens := extractGreens s.currentSignalPlan
    let departuresPerTick := live.flowRateCarsPerMin * SIM_MINUTES_PER_TICK
    match evaluate s.intersectionId live.densityPercent qpa greens departuresPerTick
        (confidenceOf st s.intersectionId) with
    | none => none
    | some r =>
      some { recOut := r, density := live.densityPercent, queue := live.queueLengthVehicles }

/-- The advisory's delta: `5 if live.densityPercent < 70 else 8`. -/
def advisoryDelta (densityPercent : ℚ) : ℤ :=
  if densityPercent < 70 then 5 else 8

/-- The advisory's target: the approach with the largest queue, plain
first-key tie-break (`max(queue_per_approach, key=queue_per_approach.get)`,
no mainline preference here). -/
def advisoryTarget (st : Store) (s : Summary) (live : Live) : Approach :=
  argmaxFirst (getQueuePerApproach st s.intersectionId live.queueLengthVehicles)

/-- The record built by `_build_advisory_recommendation` when live metrics
exist: a small proactive adjustment added to the target's current green
without any clamping. -/
def advisoryOf (st : Store) (s : Summary) (live : Live) : RecOut :=
  { targetIntersectionId := s.intersectionId
    targetApproach := advisoryTarget st s live
    currentGreenSeconds := extractGreens s.currentSignalPlan (advisoryTarget st s live)
    recommendedGreenSeconds :=
      extractGreens s.currentSignalPlan (advisoryTarget st s live) +
        advisoryDelta live.densityPercent
    deltaSeconds := advisoryDelta live.densityPercent
    predictedDelayMinutes := (pyRound (max 1 live.waitTimeMinutes * 10) : ℚ) / 10
    confidencePercent := confidenceOf st s.intersectionId }

/-- Source `_build_advisory_recommendation`: `None` without live metrics,
otherwise the advisory record. -/
def buildAdvisory (st : Store) (s : Summary) : Option RecOut :=
  match st.live s.intersectionId with
  | none => none
  | some live => some (advisoryOf st s live)

/-- The `top` list of `generate_top_recommendations`: evaluate every
intersection, sort the candidates by severity (density desc, queue desc),
take the first 3, strip the internal sort keys. -/
def topCandidates (st : Store) : List RecOut :=
  ((sortCands (st.intersections.filterMap (candidateFor st))).take 3).map Candidate.recOut

/-- Source `generate_top_recommendations`: the top candidates; if none qualified
and at least one intersection is known, fall back to the advisory for the
first intersection in the list (dropped silently when that intersection
has no live metrics). -/
def generateTopRecommendations (st : Store) : List RecOut :=
  if (topCandidates st).isEmpty then
    match st.intersections with
    | [] => topCandidates st
    | s :: _ =>
      match buildAdvisory st s with
      | none => topCandidates st
      | some adv => topCandidates st ++ [adv]
  else topCandidates st

/-! Section Failsafe, `src/app/failsafe.py` -/

/-- System mode returned by `check_failsafe`. -/
inductive Mode : Type
  | AI_ACTIVE
  | LOCAL_FALLBACK
deriving DecidableEq, Repr

/-- Source `check_failsafe(intersection_id, controller)`: the tracker entry for
the intersection (`None` when `record_sensor_tick` was never called) and
the current monotonic time are inputs; a missing or stale entry reverts
the controller to baseline and reports `LOCAL_FALLBACK`. -/
def checkFailsafe (lastEpoch : Option ℚ) (now : ℚ) (c : SignalController) :
    Mode × SignalController :=
  match lastEpoch with
  | none => (Mode.LOCAL_FALLBACK, c.revertBaseline)
  | some t =>
    if now - t > SENSOR_STALE_SECONDS then (Mode.LOCAL_FALLBACK, c.revertBaseline)
    else (Mode.AI_ACTIVE, c)

/-! Section Derived definitions and concrete fixtures used by the theorems -/

/-- The spec-scenario queue dict N:10, E:5, S:40, W:5. -/
def qScenario : Approach → ℤ
  | Approach.N => 10
  | Approach.E => 5
  | Approach.S => 40
  | Approach.W => 5

/-- Summary of the single intersection used to exercise the advisory
path: every green of its per-approach plan is already at the 70-second
maximum. -/
def advisorySummary : Summary :=
  { intersectionId := "A", currentSignalPlan := PlanShape.perApproach (fun _ => 70) }

/-- Live metrics below every threshold: empty queues, 50 % density. -/
def advisoryLive : Live :=
  { queueLengthVehicles := 0, densityPercent := 50, flowRateCarsPerMin := 0,
    waitTimeMinutes := 0 }

/-- A store holding only that intersection, with no stored per-approach
queues and no prediction (as in the running system). -/
def advisoryStore : Store :=
  { intersections := [advisorySummary]
    live := fun _ => some advisoryLive
    predConfidence := fun _ => none
    queuePerApproach := fun _ => none }

/-- Live metrics for intersection "B" in the C9 scenario: density 50,
below the 80 % alert threshold. -/
def liveB : Live :=
  { queueLengthVehicles := 8, densityPercent := 50, flowRateCarsPerMin := 1,
    waitTimeMinutes := 1 }

/-- Two known intersections; the first ("A") has no live metrics yet, the
second ("B") is below the alert threshold. -/
def noLiveFirstStore : Store :=
  { intersections :=
      [{ intersectionId := "A", currentSignalPlan := PlanShape.neither },
       { intersectionId := "B", currentSignalPlan := PlanShape.neither }]
    live := fun iid => if iid = "B" then some liveB else none
    predConfidence := fun _ => none
    queuePerApproach := fun _ => none }

/-- Every approach's green lies within the clamp bounds `[20, 70]`. -/
def greensInBounds (g : Approach → ℤ) : Prop :=
  ∀ a, MIN_GREEN_SECONDS ≤ g a ∧ g a ≤ MAX_GREEN_SECONDS

/-- Whether a call outcome is the reported-error case. -/
def isErrorResult {ε α : Type} : Except ε α → Bool
  | Except.error _ => true
  | Except.ok _ => false

/-- The delta the controller actually applies for a known approach: the
result of `_clamp_delta` on the pre-adjustment state. -/
def appliedDelta (c : SignalController) (app : Approach) (delta : ℤ) : ℤ :=
  clampDelta c.current app ((othersOf app).map c.current).sum delta

/-! Section Arithmetic helper lemmas -/

lemma le_pyRound_of_le {n : ℤ} {x : ℚ} (h : (n : ℚ) ≤ x) : n ≤ pyRound x := by
  have hf : n ≤ ⌊x⌋ := Int.le_floor.mpr h
  unfold pyRound
  split_ifs <;> omega

lemma pyRound_le_of_le {n : ℤ} {x : ℚ} (h : x ≤ (n : ℚ)) : pyRound x ≤ n := by
  have hf : ⌊x⌋ ≤ n := by
    have := Int.floor_le_floor h
    simpa using this
  have hfl : (⌊x⌋ : ℚ) ≤ x := Int.floor_le x
  unfold pyRound
  split_ifs with h1 h2 h3
  · exact hf
  · rcases lt_or_eq_of_le hf with h4 | h4
    · omega
    · exfalso
      subst h4
      have : x - (⌊x⌋ : ℚ) ≤ 0 := by linarith
      linarith
  · exact hf
  · rcases lt_or_eq_of_le hf with h4 | h4
    · omega
    · exfalso
      subst h4
      have hge : ¬(x - (⌊x⌋ : ℚ) < 1/2) := h1
      have : x - (⌊x⌋ : ℚ) ≤ 0 := by linarith
      push_neg at hge
      linarith

lemma pyRound_intCast (n : ℤ) : pyRound (n : ℚ) = n := by
  unfold pyRound
  rw [Int.floor_intCast]
  simp

lemma pyTrunc_of_nonneg {x : ℚ} (h : 0 ≤ x) : pyTrunc x = ⌊x⌋ := by
  unfold pyTrunc
  rw [if_pos h]

lemma pyTrunc_intCast_of_nonneg {n : ℤ} (h : 0 ≤ n) : pyTrunc (n : ℚ) = n := by
  rw [pyTrunc_of_nonneg (by exact_mod_cast h), Int.floor_intCast]

lemma clampQ_mem {lo hi : ℚ} (x : ℚ) (h : lo ≤ hi) :
    lo ≤ clampQ lo hi x ∧ clampQ lo hi x ≤ hi := by
  unfold clampQ
  constructor
  · exact le_max_left _ _
  · exact max_le h (min_le_left _ _)

lemma clampZ_mem (x : ℤ) : MIN_GREEN_SECONDS ≤ clampZ x ∧ clampZ x ≤ MAX_GREEN_SECONDS := by
  unfold clampZ MIN_GREEN_SECONDS MAX_GREEN_SECONDS
  omega

lemma clampGreenSeconds_mem (x : ℤ) :
    MIN_GREEN_SECONDS ≤ clampGreenSeconds x ∧ clampGreenSeconds x ≤ MAX_GREEN_SECONDS := by
  unfold clampGreenSeconds MIN_GREEN_SECONDS MAX_GREEN_SECONDS
  omega

lemma pyRound_clamped_mem (x : ℚ) :
    MIN_GREEN_SECONDS ≤ pyRound (clampQ (MIN_GREEN_SECONDS : ℚ) (MAX_GREEN_SECONDS : ℚ) x) ∧
    pyRound (clampQ (MIN_GREEN_SECONDS : ℚ) (MAX_GREEN_SECONDS : ℚ) x) ≤ MAX_GREEN_SECONDS := by
  have h := @clampQ_mem (MIN_GREEN_SECONDS : ℚ) (MAX_GREEN_SECONDS : ℚ) x
    (by norm_num [MIN_GREEN_SECONDS, MAX_GREEN_SECONDS])
  exact ⟨le_pyRound_of_le h.1, pyRound_le_of_le h.2⟩

/-! Section C1 -/

/-- C1: the cycle-conservation invariant
`sum(greenSeconds) + 4 * yellowSeconds = cycleSeconds` is already violated
by the state immediately after construction from the configured baseline:
the default greens sum to 130, so the left side is 150, not 90. (With
`MIN_GREEN_SECONDS = 20` the four greens can never sum below 80, so the
70-second green budget demanded by the invariant is unreachable
altogether.) -/
theorem cycle_conservation_violated_at_construction :
    sumGreens defaultController.current + 4 * YELLOW_SECONDS = 150 ∧
    sumGreens defaultController.current + 4 * YELLOW_SECONDS ≠ CYCLE_SECONDS := by
  constructor <;> decide

/-! Section C5 -/

/-- C5: reproducibility of the demand generator. The generator's output is
a function of its seeded `random.Random` state and the queried ticks
alone, so two independently constructed instances whose seeds (hence
initial generator states) agree produce identical per-approach arrival
mappings for every tick sequence, for every deterministic noise source
and ramp. -/
theorem demand_generator_reproducible {σ : Type} (gauss : σ → ℚ → σ × ℚ) (rampF : ℕ → ℚ)
    (p q : DemandProfile σ) (h : p.rng = q.rng) (ticks : List ℕ) :
    runArrivals gauss rampF p ticks = runArrivals gauss rampF q ticks := by
  cases p
  cases q
  cases h
  rfl

/-- Concrete instantiation of the reproducibility theorem. -/
theorem demand_generator_reproducible_witness :
    (DemandProfile.mk 42 : DemandProfile ℕ).rng = (DemandProfile.mk 42 : DemandProfile ℕ).rng ∧
    runArrivals (fun s x => (s + 1, x)) (fun _ => 0) (DemandProfile.mk 42) [0, 1, 2] =
      runArrivals (fun s x => (s + 1, x)) (fun _ => 0) (DemandProfile.mk 42) [0, 1, 2] :=
  ⟨rfl, demand_generator_reproducible (fun s x => (s + 1, x)) (fun _ => 0)
    (DemandProfile.mk 42) (DemandProfile.mk 42) rfl [0, 1, 2]⟩

/-! Section C7 -/

/-- C7: with no recorded tick for the intersection (tracker entry absent),
`check_failsafe` returns `LOCAL_FALLBACK` and reverts the controller to
its baseline; a second immediate check with still no recorded tick again
returns `LOCAL_FALLBACK` and leaves the plan at the baseline, the state
unchanged from the first check — and `revert_baseline` itself is
idempotent. -/
theorem checkFailsafe_never_recorded (c : SignalController) (now1 now2 : ℚ) :
    (checkFailsafe none now1 c).1 = Mode.LOCAL_FALLBACK ∧
    (checkFailsafe none now1 c).2.current = c.baseline ∧
    (checkFailsafe none now2 (checkFailsafe none now1 c).2).1 = Mode.LOCAL_FALLBACK ∧
    (checkFailsafe none now2 (checkFailsafe none now1 c).2).2.current = c.baseline ∧
    (checkFailsafe none now2 (checkFailsafe none now1 c).2).2 = (checkFailsafe none now1 c).2 ∧
    c.revertBaseline.revertBaseline = c.revertBaseline := by
  refine ⟨rfl, rfl, rfl, rfl, rfl, rfl⟩

/-! Section C10 -/

/-- C10: `TimelineBuffer.last(n)` returns the `n` most recent points
(oldest first) when `0 < n < size`, all points when `n ≥ size`, and — via
Python's `points[-0:] = points[0:]` slice — all points, not an empty
list, when `n = 0` on a non-empty buffer. -/
theorem timelineLast_spec {α : Type} (l : List α) (n : ℕ) :
    (0 < n → n < l.length → timelineLast l n = l.drop (l.length - n)) ∧
    (l.length ≤ n → timelineLast l n = l) ∧
    (l ≠ [] → timelineLast l 0 = l) := by
  refine ⟨?_, ?_, ?_⟩
  · intro hpos hlt
    unfold timelineLast pySliceFrom
    rw [if_pos hlt, if_neg (by omega)]
    congr 1
    omega
  · intro hge
    unfold timelineLast
    rw [if_neg (by omega)]
  · intro hne
    have hlen : 0 < l.length := List.length_pos.mpr hne
    unfold timelineLast pySliceFrom
    rw [if_pos hlen]
    norm_num

/-- Concrete instantiation of the `TimelineBuffer.last` theorem on a
five-point buffer. -/
theorem timelineLast_spec_witness :
    timelineLast [1, 2, 3, 4, 5] 2 = [4, 5] ∧
    timelineLast [1, 2, 3, 4, 5] 7 = [1, 2, 3, 4, 5] ∧
    timelineLast [1, 2, 3, 4, 5] 0 = [1, 2, 3, 4, 5] := by
  refine ⟨?_, ?_, ?_⟩
  · rw [(timelineLast_spec [1, 2, 3, 4, 5] 2).1 (by decide) (by decide)]
    decide
  · rw [(timelineLast_spec [1, 2, 3, 4, 5] 7).2.1 (by decide)]
  · rw [(timelineLast_spec [1, 2, 3, 4, 5] 0).2.2 (by decide)]

/-! Section C8 -/

lemma argmaxNE_eq_max (q : Approach → ℤ) :
    q (argmaxNE q) = max (q Approach.N) (q Approach.E) := by
  unfold argmaxNE
  simp only [max_def]
  split_ifs <;> omega

lemma argmaxNES_eq_max (q : Approach → ℤ) :
    q (argmaxNES q) = max (max (q Approach.N) (q Approach.E)) (q Approach.S) := by
  unfold argmaxNES
  have h := argmaxNE_eq_max q
  simp only [max_def] at h ⊢
  split_ifs at h ⊢ <;> omega

lemma argmaxFirst_eq_max (q : Approach → ℤ) : q (argmaxFirst q) = maxQueue q := by
  unfold argmaxFirst maxQueue
  have h := argmaxNES_eq_max q
  simp only [max_def] at h ⊢
  split_ifs at h ⊢ <;> omega

lemma selectTarget_eq_max (q : Approach → ℤ) :
    q (selectTargetApproach q) = maxQueue q := by
  unfold selectTargetApproach
  split_ifs with h
  · exact h
  · exact argmaxFirst_eq_max q

lemma selectTarget_prefers_S (q : Approach → ℤ) (h : q Approach.S = maxQueue q) :
    selectTargetApproach q = Approach.S := by
  unfold selectTargetApproach
  rw [if_pos h]

lemma evaluate_none_iff (iid : String) (density : ℚ) (q greens : Approach → ℤ)
    (deps conf : ℚ) :
    evaluate iid density q greens deps conf = none ↔
      density < CONGESTION_ALERT_CAPACITY_PERCENT := by
  unfold evaluate
  split_ifs with h
  · simp [h]
  · simp [h]

/-- C8: `evaluate` returns nothing exactly when the density is below the
80 % alert threshold; otherwise the produced recommendation targets an
approach with the largest queue (with the mainline approach S preferred
whenever it attains the maximum), its current green is read from that
approach, and its recommended green is the clamp of current green plus
the proportional delta `max(1, min(20, round(20 * approachQueue /
totalQueue)))` (with a guarded denominator that matters only for a
non-positive total queue). -/
theorem evaluate_threshold_and_target (iid : String) (density : ℚ)
    (q greens : Approach → ℤ) (deps conf : ℚ) :
    (evaluate iid density q greens deps conf = none ↔
      density < CONGESTION_ALERT_CAPACITY_PERCENT) ∧
    (∀ r, evaluate iid density q greens deps conf = some r →
      q r.targetApproach = maxQueue q ∧
      (q Approach.S = maxQueue q → r.targetApproach = Approach.S) ∧
      r.currentGreenSeconds = greens r.targetApproach ∧
      r.recommendedGreenSeconds =
        clampGreenSeconds (greens r.targetApproach +
          proportionalDelta (q r.targetApproach) (totalQueue q)) ∧
      (0 < totalQueue q →
        proportionalDelta (q r.targetApproach) (totalQueue q) =
          max 1 (min MAX_DELTA
            (pyRound ((MAX_DELTA : ℚ) * (q r.targetApproach : ℚ) / (totalQueue q : ℚ)))))) := by
  refine ⟨evaluate_none_iff iid density q greens deps conf, ?_⟩
  intro r hr
  unfold evaluate at hr
  split_ifs at hr with h
  have hr' : evalRec iid q greens deps conf = r := Option.some_injective _ hr
  have htarget : r.targetApproach = selectTargetApproach q := by
    rw [← hr']
    rfl
  refine ⟨?_, ?_, ?_, ?_, ?_⟩
  · rw [htarget]
    exact selectTarget_eq_max q
  · intro hS
    rw [htarget]
    exact selectTarget_prefers_S q hS
  · rw [← hr']
    rfl
  · rw [← hr']
    rfl
  · intro hpos
    unfold proportionalDelta
    rw [max_eq_right (by omega : (1 : ℤ) ≤ totalQueue q)]

/-- Concrete instantiation of the `evaluate` theorem: the spec scenario
with density 85 and queues N:10, E:5, S:40, W:5 produces a
recommendation targeting S, the approach with the largest queue. -/
theorem evaluate_threshold_and_target_witness :
    evaluate "X" 85 qScenario DEFAULT_GREEN_SECONDS 10 95 =
      some (evalRec "X" qScenario DEFAULT_GREEN_SECONDS 10 95) ∧
    qScenario (evalRec "X" qScenario DEFAULT_GREEN_SECONDS 10 95).targetApproach =
      maxQueue qScenario ∧
    (evalRec "X" qScenario DEFAULT_GREEN_SECONDS 10 95).targetApproach = Approach.S :=
  have hev : evaluate "X" 85 qScenario DEFAULT_GREEN_SECONDS 10 95 =
      some (evalRec "X" qScenario DEFAULT_GREEN_SECONDS 10 95) := by
    rw [evaluate, if_neg (by norm_num [CONGESTION_ALERT_CAPACITY_PERCENT])]
  have h := (evaluate_threshold_and_target "X" 85 qScenario DEFAULT_GREEN_SECONDS 10 95).2
    (evalRec "X" qScenario DEFAULT_GREEN_SECONDS 10 95) hev
  ⟨hev, h.1, h.2.1 (by decide)⟩

/-! Section C6 -/

/-- C6 counterexample: with density 50 (below threshold) and current
greens already at the 70-second maximum, the rule engine produces exactly
the advisory recommendation, and its recommended green is 75 — outside
the clamp bounds `[20, 70]` — so the claim that every produced
recommendation's `recommendedGreenSeconds` is within the clamp bounds is
false. (Its delta fidelity still holds: 75 − 70 = 5.) -/
theorem advisory_recommendation_exceeds_max_green :
    generateTopRecommendations advisoryStore = [advisoryOf advisoryStore advisorySummary advisoryLive] ∧
    (advisoryOf advisoryStore advisorySummary advisoryLive).currentGreenSeconds = 70 ∧
    (advisoryOf advisoryStore advisorySummary advisoryLive).recommendedGreenSeconds = 75 ∧
    ¬((advisoryOf advisoryStore advisorySummary advisoryLive).recommendedGreenSeconds ≤
        MAX_GREEN_SECONDS) := by
  have hev : candidateFor advisoryStore advisorySummary = none := by
    unfold candidateFor advisoryStore
    simp only []
    rw [evaluate, if_pos (by norm_num [advisoryLive, CONGESTION_ALERT_CAPACITY_PERCENT])]
  have htop : topCandidates advisoryStore = [] := by
    unfold topCandidates
    rw [show advisoryStore.intersections = [advisorySummary] from rfl]
    rw [List.filterMap_cons, hev]
    rfl
  have hgen : generateTopRecommendations advisoryStore =
      [advisoryOf advisoryStore advisorySummary advisoryLive] := by
    unfold generateTopRecommendations
    rw [htop]
    rfl
  refine ⟨hgen, rfl, ?_, ?_⟩
  · show extractGreens advisorySummary.currentSignalPlan
        (advisoryTarget advisoryStore advisorySummary advisoryLive) +
      advisoryDelta advisoryLive.densityPercent = 75
    rw [show extractGreens advisorySummary.currentSignalPlan
        (advisoryTarget advisoryStore advisorySummary advisoryLive) = 70 from rfl]
    rw [advisoryDelta, if_pos (by norm_num [advisoryLive])]
    decide
  · intro hle
    rw [show (advisoryOf advisoryStore advisorySummary advisoryLive).recommendedGreenSeconds =
        extractGreens advisorySummary.currentSignalPlan
          (advisoryTarget advisoryStore advisorySummary advisoryLive) +
          advisoryDelta advisoryLive.densityPercent from rfl] at hle
    rw [show extractGreens advisorySummary.currentSignalPlan
        (advisoryTarget advisoryStore advisorySummary advisoryLive) = 70 from rfl] at hle
    rw [advisoryDelta, if_pos (by norm_num [advisoryLive])] at hle
    exact absurd hle (by decide)

/-- C6 amended: every recommendation reports `recommendedGreenSeconds −
currentGreenSeconds` as its `deltaSeconds` (delta fidelity), and the
threshold-crossing recommendations of `evaluate` always keep
`recommendedGreenSeconds` within the clamp bounds `[20, 70]`; the
advisory's recommended green, however, is the unclamped
`currentGreen + delta` with delta 5 or 8, and may exceed `maxGreen`. -/
theorem recommendation_delta_fidelity :
    (∀ (iid : String) (density : ℚ) (q greens : Approach → ℤ) (deps conf : ℚ) r,
      evaluate iid density q greens deps conf = some r →
        r.recommendedGreenSeconds - r.currentGreenSeconds = r.deltaSeconds ∧
        MIN_GREEN_SECONDS ≤ r.recommendedGreenSeconds ∧
        r.recommendedGreenSeconds ≤ MAX_GREEN_SECONDS) ∧
    (∀ (st : Store) (s : Summary) r,
      buildAdvisory st s = some r →
        r.recommendedGreenSeconds - r.currentGreenSeconds = r.deltaSeconds ∧
        (r.deltaSeconds = 5 ∨ r.deltaSeconds = 8)) := by
  constructor
  · intro iid density q greens deps conf r hr
    unfold evaluate at hr
    split_ifs at hr
    have hr' : evalRec iid q greens deps conf = r := Option.some_injective _ hr
    refine ⟨?_, ?_, ?_⟩
    · rw [← hr']
      rfl
    · rw [← hr']
      exact (clampGreenSeconds_mem _).1
    · rw [← hr']
      exact (clampGreenSeconds_mem _).2
  · intro st s r hr
    unfold buildAdvisory at hr
    cases hl : st.live s.intersectionId with
    | none => rw [hl] at hr; exact absurd hr (by simp)
    | some live =>
      rw [hl] at hr
      have hr' : advisoryOf st s live = r := Option.some_injective _ hr
      constructor
      · rw [← hr']
        show extractGreens s.currentSignalPlan (advisoryTarget st s live) +
            advisoryDelta live.densityPercent -
            extractGreens s.currentSignalPlan (advisoryTarget st s live) =
          advisoryDelta live.densityPercent
        omega
      · rw [← hr']
        show advisoryDelta live.densityPercent = 5 ∨ advisoryDelta live.densityPercent = 8
        unfold advisoryDelta
        split_ifs
        · left; rfl
        · right; rfl

/-- Concrete instantiation of the delta-fidelity theorem on the spec
scenario recommendation and on the advisory of the counterexample
store. -/
theorem recommendation_delta_fidelity_witness :
    ((evalRec "X" qScenario DEFAULT_GREEN_SECONDS 10 95).recommendedGreenSeconds -
        (evalRec "X" qScenario DEFAULT_GREEN_SECONDS 10 95).currentGreenSeconds =
      (evalRec "X" qScenario DEFAULT_GREEN_SECONDS 10 95).deltaSeconds) ∧
    ((advisoryOf advisoryStore advisorySummary advisoryLive).recommendedGreenSeconds -
        (advisoryOf advisoryStore advisorySummary advisoryLive).currentGreenSeconds =
      (advisoryOf advisoryStore advisorySummary advisoryLive).deltaSeconds) :=
  ⟨(recommendation_delta_fidelity.1 "X" 85 qScenario DEFAULT_GREEN_SECONDS 10 95 _
      (by rw [evaluate, if_neg (by norm_num [CONGESTION_ALERT_CAPACITY_PERCENT])])).1,
   (recommendation_delta_fidelity.2 advisoryStore advisorySummary _ rfl).1⟩

/-! Section C9 -/

lemma candidateFor_eq_none_of_below {st : Store} {s : Summary}
    (h : ∀ lv, st.live s.intersectionId = some lv →
      lv.densityPercent < CONGESTION_ALERT_CAPACITY_PERCENT) :
    candidateFor st s = none := by
  unfold candidateFor
  cases hl : st.live s.intersectionId with
  | none => rfl
  | some lv =>
    unfold evaluate
    dsimp only
    rw [if_pos (h lv hl)]

/-- C9 counterexample: intersections are known and none crosses the alert
threshold ("A" has no live metrics at all, "B" sits at 50 % density), yet
the ranking step returns the empty list — no advisory is emitted, because
the advisory is attempted only for the first listed intersection and that
one has no live metrics. -/
theorem no_advisory_when_first_has_no_live :
    noLiveFirstStore.intersections ≠ [] ∧
    noLiveFirstStore.live "A" = none ∧
    noLiveFirstStore.live "B" = some liveB ∧
    liveB.densityPercent < CONGESTION_ALERT_CAPACITY_PERCENT ∧
    generateTopRecommendations noLiveFirstStore = [] := by
  refine ⟨by simp [noLiveFirstStore], by simp [noLiveFirstStore], by simp [noLiveFirstStore],
    by norm_num [liveB, CONGESTION_ALERT_CAPACITY_PERCENT], ?_⟩
  have hA : candidateFor noLiveFirstStore
      { intersectionId := "A", currentSignalPlan := PlanShape.neither } = none :=
    candidateFor_eq_none_of_below (by
      intro lv hlv
      simp [noLiveFirstStore] at hlv)
  have hB : candidateFor noLiveFirstStore
      { intersectionId := "B", currentSignalPlan := PlanShape.neither } = none :=
    candidateFor_eq_none_of_below (by
      intro lv hlv
      simp only [noLiveFirstStore] at hlv
      norm_num at hlv
      rw [← hlv]
      norm_num [liveB, CONGESTION_ALERT_CAPACITY_PERCENT])
  have htop : topCandidates noLiveFirstStore = [] := by
    unfold topCandidates
    rw [show noLiveFirstStore.intersections =
      [{ intersectionId := "A", currentSignalPlan := PlanShape.neither },
       { intersectionId := "B", currentSignalPlan := PlanShape.neither }] from rfl]
    rw [List.filterMap_cons, hA, List.filterMap_cons, hB]
    rfl
  unfold generateTopRecommendations
  rw [htop]
  rfl

lemma topCandidates_eq_nil_of_below {st : Store}
    (h : ∀ s ∈ st.intersections, ∀ lv, st.live s.intersectionId = some lv →
      lv.densityPercent < CONGESTION_ALERT_CAPACITY_PERCENT) :
    topCandidates st = [] := by
  unfold topCandidates
  rw [List.filterMap_eq_nil_iff.mpr (fun s hs => candidateFor_eq_none_of_below (h s hs))]
  rfl

/-- C9 amended: when at least one intersection is known and no
intersection's live density crosses the alert threshold, the ranking step
emits exactly one advisory recommendation targeting the *first* listed
intersection — not the least-idle one — provided that first intersection
has live metrics; when the first intersection has no live metrics, the
returned list is empty. -/
theorem advisory_targets_first_intersection (st : Store) (hd : Summary) (tl : List Summary)
    (hint : st.intersections = hd :: tl)
    (hbelow : ∀ s ∈ st.intersections, ∀ lv, st.live s.intersectionId = some lv →
      lv.densityPercent < CONGESTION_ALERT_CAPACITY_PERCENT) :
    (∀ lv, st.live hd.intersectionId = some lv →
      generateTopRecommendations st = [advisoryOf st hd lv] ∧
      (advisoryOf st hd lv).targetIntersectionId = hd.intersectionId) ∧
    (st.live hd.intersectionId = none → generateTopRecommendations st = []) := by
  have htop := topCandidates_eq_nil_of_below hbelow
  constructor
  · intro lv hlv
    refine ⟨?_, rfl⟩
    unfold generateTopRecommendations
    rw [htop, hint]
    show (match buildAdvisory st hd with
      | none => ([] : List RecOut)
      | some adv => [] ++ [adv]) = [advisoryOf st hd lv]
    unfold buildAdvisory
    rw [hlv]
    rfl
  · intro hnone
    unfold generateTopRecommendations
    rw [htop, hint]
    show (match buildAdvisory st hd with
      | none => ([] : List RecOut)
      | some adv => [] ++ [adv]) = []
    unfold buildAdvisory
    rw [hnone]

/-- Concrete instantiation of the amended C9 theorem on a single
below-threshold intersection with live metrics: exactly one advisory for
it. -/
theorem advisory_targets_first_intersection_witness :
    generateTopRecommendations advisoryStore =
      [advisoryOf advisoryStore advisorySummary advisoryLive] ∧
    (advisoryOf advisoryStore advisorySummary advisoryLive).targetIntersectionId =
      advisorySummary.intersectionId :=
  (advisory_targets_first_intersection advisoryStore advisorySummary [] rfl
    (by
      intro s hs lv hlv
      have : some advisoryLive = some lv := hlv
      have hlv' : lv = advisoryLive := (Option.some_injective _ this).symm
      rw [hlv']
      norm_num [advisoryLive, CONGESTION_ALERT_CAPACITY_PERCENT])).1
    advisoryLive rfl

/-! Section C2 -/

lemma enforceCycle_baseline (c : SignalController) (pa : Approach) :
    (c.enforceCycle pa).baseline = c.baseline := by
  unfold SignalController.enforceCycle
  dsimp only
  split_ifs <;> rfl

lemma applyKnown_baseline (c : SignalController) (app : Approach) (d : ℤ) :
    (c.applyKnown app d).baseline = c.baseline := by
  unfold SignalController.applyKnown
  dsimp only
  split_ifs <;> simp [enforceCycle_baseline]

lemma enforceCycle_inBounds (c : SignalController) (pa : Approach)
    (hc : greensInBounds c.current) : greensInBounds ((c.enforceCycle pa).current) := by
  unfold SignalController.enforceCycle
  dsimp only
  split_ifs with h
  · exact hc
  · intro a
    dsimp only
    split_ifs with ha
    · exact clampZ_mem _
    · exact hc a

lemma applyKnown_inBounds (c : SignalController) (app : Approach) (d : ℤ)
    (hc : greensInBounds c.current) : greensInBounds ((c.applyKnown app d).current) := by
  unfold SignalController.applyKnown
  dsimp only
  split_ifs with h h2
  · exact hc
  · apply enforceCycle_inBounds
    intro a
    dsimp only
    split_ifs with ha
    · exact clampZ_mem _
    · exact pyRound_clamped_mem _
  · apply enforceCycle_inBounds
    intro a
    dsimp only
    split_ifs with ha
    · exact clampZ_mem _
    · exact pyRound_clamped_mem _

lemma execOp_preserves (c : SignalController) (op : ControllerOp)
    (hb : greensInBounds c.baseline) (hc : greensInBounds c.current) :
    greensInBounds (execOp c op).baseline ∧ greensInBounds (execOp c op).current := by
  cases op with
  | adjust s d =>
    unfold execOp SignalController.applyAdjustment
    dsimp only
    cases hp : parseApproach s with
    | none => exact ⟨hb, hc⟩
    | some app =>
      dsimp only
      rw [applyKnown_baseline]
      exact ⟨hb, applyKnown_inBounds c app d hc⟩
  | revert =>
    unfold execOp SignalController.revertBaseline
    dsimp only
    exact ⟨hb, hb⟩

lemma execOps_preserves (ops : List ControllerOp) :
    ∀ c : SignalController, greensInBounds c.baseline → greensInBounds c.current →
      greensInBounds (execOps c ops).baseline ∧ greensInBounds (execOps c ops).current := by
  induction ops with
  | nil => exact fun c hb hc => ⟨hb, hc⟩
  | cons op ops ih =>
    intro c hb hc
    have h := execOp_preserves c op hb hc
    exact ih (execOp c op) h.1 h.2

/-- C2: starting from any baseline whose greens all lie in `[20, 70]`,
every plan reachable through any sequence of `applyAdjustment` /
`revertBaseline` calls keeps every approach's green seconds within
`[20, 70]`: every write the controller performs passes through a clamp
(the rounded proportional redistribution, the reconciled target, the
`_enforce_cycle` nudge) or restores the baseline. -/
theorem reachable_plans_stay_clamped (b : Approach → ℤ) (hb : greensInBounds b)
    (ops : List ControllerOp) :
    greensInBounds ((execOps (SignalController.init b) ops).current) :=
  (execOps_preserves ops (SignalController.init b) hb hb).2

/-- Concrete instantiation of the clamp invariant after an adjustment, a
revert, and a second adjustment from the default baseline. -/
theorem reachable_plans_stay_clamped_witness :
    MIN_GREEN_SECONDS ≤
      (execOps (SignalController.init DEFAULT_GREEN_SECONDS)
        [ControllerOp.adjust "S" 20, ControllerOp.revert,
         ControllerOp.adjust "N" (-10)]).current Approach.S ∧
    (execOps (SignalController.init DEFAULT_GREEN_SECONDS)
        [ControllerOp.adjust "S" 20, ControllerOp.revert,
         ControllerOp.adjust "N" (-10)]).current Approach.S ≤ MAX_GREEN_SECONDS :=
  reachable_plans_stay_clamped DEFAULT_GREEN_SECONDS
    (by intro a; cases a <;> exact ⟨by decide, by decide⟩)
    [ControllerOp.adjust "S" 20, ControllerOp.revert, ControllerOp.adjust "N" (-10)]
    Approach.S

/-! Section C4 -/

lemma stepQueue_bounds (q arr g : Approach → ℤ) (a : Approach) :
    0 ≤ stepQueue q arr g a ∧ stepQueue q arr g a ≤ QUEUE_HARD_CAP_PER_APPROACH := by
  unfold stepQueue QUEUE_HARD_CAP_PER_APPROACH
  dsimp only
  exact ⟨le_min (by norm_num) (le_max_left _ _), min_le_left _ _⟩

lemma serviceCapacity_ge_14 {a : Approach} {g : ℤ} (hg : MIN_GREEN_SECONDS ≤ g) :
    (14 : ℚ) ≤ serviceCapacity a g := by
  have hg' : (20 : ℚ) ≤ (g : ℚ) := by
    rw [MIN_GREEN_SECONDS] at hg
    exact_mod_cast hg
  cases a <;>
    (unfold serviceCapacity LANES SAT_FLOW_VEH_PER_HOUR_PER_LANE CYCLE_SECONDS
      SIM_MINUTES_PER_TICK
     push_cast
     linarith)

lemma stepQueue_zero_arrivals_drop (q g : Approach → ℤ) (a : Approach)
    (hq0 : 0 ≤ q a) (hq : q a ≤ 120) (hg : MIN_GREEN_SECONDS ≤ g a) :
    stepQueue q zeroQueue g a = 0 ∨ stepQueue q zeroQueue g a ≤ q a - 14 := by
  have hcap : (14 : ℚ) ≤ serviceCapacity a (g a) := serviceCapacity_ge_14 hg
  unfold stepQueue zeroQueue QUEUE_HARD_CAP_PER_APPROACH
  dsimp only
  rw [show q a + 0 = q a from by omega]
  by_cases hc : (q a : ℚ) ≤ serviceCapacity a (g a)
  · left
    rw [min_eq_left hc, pyTrunc_intCast_of_nonneg hq0]
    omega
  · right
    push_neg at hc
    rw [min_eq_right (le_of_lt hc)]
    rw [pyTrunc_of_nonneg (by linarith)]
    have h14 : (14 : ℤ) ≤ ⌊serviceCapacity a (g a)⌋ := by
      rw [Int.le_floor]
      exact_mod_cast hcap
    have hlt : ⌊serviceCapacity a (g a)⌋ < q a := by
      have h1 : (⌊serviceCapacity a (g a)⌋ : ℚ) ≤ serviceCapacity a (g a) := Int.floor_le _
      have : (⌊serviceCapacity a (g a)⌋ : ℚ) < (q a : ℚ) := lt_of_le_of_lt h1 hc
      exact_mod_cast this
    omega

lemma runQueue_bounds (ticks : List ((Approach → ℤ) × (Approach → ℤ))) :
    ∀ q : Approach → ℤ, (∀ a, 0 ≤ q a ∧ q a ≤ QUEUE_HARD_CAP_PER_APPROACH) →
      ∀ a, 0 ≤ runQueue q ticks a ∧ runQueue q ticks a ≤ QUEUE_HARD_CAP_PER_APPROACH := by
  induction ticks with
  | nil => exact fun q hq => hq
  | cons t ts ih =>
    intro q hq
    exact ih (stepQueue q t.1 t.2) (fun a => stepQueue_bounds q t.1 t.2 a)

lemma runQueue_drain_aux (gs : List (Approach → ℤ)) :
    ∀ (q : Approach → ℤ) (a : Approach),
      (∀ g ∈ gs, MIN_GREEN_SECONDS ≤ g a) → 0 ≤ q a → q a ≤ 120 →
      q a ≤ 14 * gs.length →
      runQueue q (gs.map fun g => (zeroQueue, g)) a = 0 := by
  induction gs with
  | nil =>
    intro q a _ hq0 _ hle
    show q a = 0
    simp at hle
    omega
  | cons g gs ih =>
    intro q a hg hq0 hq hle
    show runQueue (stepQueue q zeroQueue g) (gs.map fun g => (zeroQueue, g)) a = 0
    have hstep := stepQueue_zero_arrivals_drop q g a hq0 hq
      (hg g (List.mem_cons_self g gs))
    have hb := stepQueue_bounds q zeroQueue g a
    rw [QUEUE_HARD_CAP_PER_APPROACH] at hb
    apply ih (stepQueue q zeroQueue g) a
      (fun g' hg' => hg g' (List.mem_cons_of_mem g hg'))
      hb.1 hb.2
    have hlen : (g :: gs).length = gs.length + 1 := rfl
    rw [hlen] at hle
    omega

/-- C4: for every tick sequence (arbitrary arrivals and plan greens per
tick) fed to `IntersectionSim.step` from the initial all-zero queues,
every approach's queue stays a non-negative integer bounded by the hard
cap 120; and from any in-cap queue state, if arrivals are held at zero
while the plan greens stay within the clamp bounds, every approach's
queue reaches zero within 9 ticks (each tick removes at least
`⌊capacity⌋ ≥ 14` vehicles or empties the queue, and `14 × 9 > 120`). -/
theorem queue_bounded_and_drains :
    (∀ (ticks : List ((Approach → ℤ) × (Approach → ℤ))) (a : Approach),
      0 ≤ runQueue zeroQueue ticks a ∧
      runQueue zeroQueue ticks a ≤ QUEUE_HARD_CAP_PER_APPROACH) ∧
    (∀ (q : Approach → ℤ) (gs : List (Approach → ℤ)),
      (∀ a, 0 ≤ q a ∧ q a ≤ QUEUE_HARD_CAP_PER_APPROACH) →
      (∀ g ∈ gs, ∀ a, MIN_GREEN_SECONDS ≤ g a ∧ g a ≤ MAX_GREEN_SECONDS) →
      9 ≤ gs.length →
      ∀ a, runQueue q (gs.map fun g => (zeroQueue, g)) a = 0) := by
  constructor
  · intro ticks a
    exact runQueue_bounds ticks zeroQueue
      (fun a => ⟨le_refl 0, by norm_num [zeroQueue, QUEUE_HARD_CAP_PER_APPROACH]⟩) a
  · intro q gs hq hg hlen a
    apply runQueue_drain_aux gs q a (fun g hmem => (hg g hmem a).1) (hq a).1
    · have := (hq a).2
      rw [QUEUE_HARD_CAP_PER_APPROACH] at this
      exact this
    · have := (hq a).2
      rw [QUEUE_HARD_CAP_PER_APPROACH] at this
      omega

/-- Concrete instantiation of the drain theorem: full queues (120) empty
after 9 zero-arrival ticks at minimum green. -/
theorem queue_bounded_and_drains_witness :
    runQueue (fun _ => 120)
      ((List.replicate 9 (fun _ => (20 : ℤ))).map fun g => (zeroQueue, g)) Approach.N = 0 :=
  queue_bounded_and_drains.2 (fun _ => 120) (List.replicate 9 (fun _ => 20))
    (fun _ => ⟨by norm_num, by norm_num [QUEUE_HARD_CAP_PER_APPROACH]⟩)
    (fun g hg a => by
      rw [List.eq_of_mem_replicate hg]
      exact ⟨by norm_num [MIN_GREEN_SECONDS], by norm_num [MAX_GREEN_SECONDS]⟩)
    (by simp)
    Approach.N

/-! Section C3 -/

lemma parseApproach_eq_none_iff (s : String) :
    parseApproach s = none ↔ s ∉ (["N", "E", "S", "W"] : List String) := by
  unfold parseApproach
  split_ifs <;> simp [*]

lemma searchDelta_spec (cur : Approach → ℤ) (app : Approach) (ot sign : ℤ) (n : ℕ) :
    (searchDelta cur app ot sign n = 0 ∧
      ∀ k : ℕ, 1 ≤ k → k ≤ n → feasibleDelta cur app ot (sign * k) = false) ∨
    (∃ m : ℕ, 1 ≤ m ∧ m ≤ n ∧ searchDelta cur app ot sign n = sign * m ∧
      feasibleDelta cur app ot (sign * m) = true ∧
      ∀ k : ℕ, m < k → k ≤ n → feasibleDelta cur app ot (sign * k) = false) := by
  induction n with
  | zero =>
    left
    exact ⟨rfl, fun k hk1 hk2 => absurd (le_trans hk1 hk2) (by omega)⟩
  | succ n ih =>
    by_cases hf : feasibleDelta cur app ot (sign * (n + 1)) = true
    · right
      refine ⟨n + 1, by omega, le_refl _, ?_, ?_, ?_⟩
      · simp only [searchDelta]
        rw [if_pos hf]
        push_cast
        ring
      · exact hf
      · intro k hk1 hk2
        omega
    · have hf' : feasibleDelta cur app ot (sign * (n + 1)) = false :=
        Bool.not_eq_true _ |>.mp hf
      have hstep : searchDelta cur app ot sign (n + 1) = searchDelta cur app ot sign n := by
        simp only [searchDelta]
        rw [if_neg hf]
      rcases ih with ⟨h0, hall⟩ | ⟨m, hm1, hmn, heq, hfeas, hmax⟩
      · left
        refine ⟨by rw [hstep]; exact h0, ?_⟩
        intro k hk1 hk2
        rcases Nat.lt_or_ge k (n + 1) with h | h
        · exact hall k hk1 (by omega)
        · have hke : k = n + 1 := by omega
          rw [hke]
          exact hf'
      · right
        refine ⟨m, hm1, by omega, by rw [hstep]; exact heq, hfeas, ?_⟩
        intro k hk1 hk2
        rcases Nat.lt_or_ge k (n + 1) with h | h
        · exact hmax k hk1 (by omega)
        · have hke : k = n + 1 := by omega
          rw [hke]
          exact hf'

lemma clampDelta_zero (cur : Approach → ℤ) (app : Approach) (ot : ℤ) :
    clampDelta cur app ot 0 = 0 := by
  unfold clampDelta
  rw [if_pos rfl]

lemma clampDelta_spec (cur : Approach → ℤ) (app : Approach) (ot δ : ℤ) :
    (clampDelta cur app ot δ ≠ 0 →
      feasibleDelta cur app ot (clampDelta cur app ot δ) = true ∧
      (clampDelta cur app ot δ).natAbs ≤ δ.natAbs ∧
      (0 < δ → 0 < clampDelta cur app ot δ) ∧
      (δ < 0 → clampDelta cur app ot δ < 0)) ∧
    (∀ k : ℤ, k.natAbs ≤ δ.natAbs → (clampDelta cur app ot δ).natAbs < k.natAbs →
      (0 < δ → 0 < k) → (δ < 0 → k < 0) →
      feasibleDelta cur app ot k = false) := by
  by_cases hδ : δ = 0
  · subst hδ
    rw [clampDelta_zero]
    refine ⟨fun hne => absurd rfl hne, ?_⟩
    intro k h1 h2 _ _
    omega
  · have hd : clampDelta cur app ot δ =
        searchDelta cur app ot (if δ > 0 then 1 else -1) δ.natAbs := by
      unfold clampDelta
      rw [if_neg hδ]
    rcases searchDelta_spec cur app ot (if δ > 0 then 1 else -1) δ.natAbs with
      ⟨h0, hall⟩ | ⟨m, hm1, hmn, heq, hfeas, hmax⟩
    · refine ⟨fun hne => absurd (by rw [hd, h0]) hne, ?_⟩
      intro k h1 h2 h3 h4
      have hk : k = (if δ > 0 then (1 : ℤ) else -1) * (k.natAbs : ℤ) := by
        split_ifs with hpos
        · have := h3 hpos
          omega
        · have hneg : δ < 0 := by omega
          have := h4 hneg
          omega
      rw [hk]
      rw [hd, h0] at h2
      exact hall k.natAbs (by omega) (by omega)
    · have hnab : (clampDelta cur app ot δ).natAbs = m := by
        rw [hd, heq]
        split_ifs <;> omega
      refine ⟨fun _ => ⟨by rw [hd, heq]; exact hfeas, by omega, ?_, ?_⟩, ?_⟩
      · intro hpos
        rw [hd, heq, if_pos hpos]
        omega
      · intro hneg
        rw [hd, heq, if_neg (by omega)]
        omega
      · intro k h1 h2 h3 h4
        rw [hnab] at h2
        have hk : k = (if δ > 0 then (1 : ℤ) else -1) * (k.natAbs : ℤ) := by
          split_ifs with hpos
          · have := h3 hpos
            omega
          · have hneg : δ < 0 := by omega
            have := h4 hneg
            omega
        rw [hk]
        exact hmax k.natAbs h2 (by omega)

lemma applyKnown_of_appliedDelta_zero (c : SignalController) (app : Approach) (δ : ℤ)
    (h : appliedDelta c app δ = 0) : c.applyKnown app δ = c := by
  unfold appliedDelta at h
  unfold SignalController.applyKnown
  dsimp only
  rw [if_pos h]

/-- C3: `applyAdjustment` reports an error exactly when the approach name
is not one of the four known approaches, and in that case the controller
state is untouched. For a known approach the call never errors: the
applied delta is `_clamp_delta`'s result, which — when nonzero — is
feasible, has the sign of the request and magnitude at most the request,
and is maximal (every same-sign candidate of larger magnitude up to the
request is infeasible); when it is zero the call is a no-op returning the
unchanged plan. -/
theorem applyAdjustment_error_and_degrade (c : SignalController) (s : String) (δ : ℤ) :
    (isErrorResult (c.applyAdjustment s δ).1 = true ↔
      s ∉ (["N", "E", "S", "W"] : List String)) ∧
    (s ∉ (["N", "E", "S", "W"] : List String) → (c.applyAdjustment s δ).2 = c) ∧
    (∀ app, parseApproach s = some app →
      isErrorResult (c.applyAdjustment s δ).1 = false ∧
      (c.applyAdjustment s δ).2 = c.applyKnown app δ ∧
      (appliedDelta c app δ = 0 →
        (c.applyAdjustment s δ).2 = c ∧
        (c.applyAdjustment s δ).1 = Except.ok c.getPlan) ∧
      (appliedDelta c app δ ≠ 0 →
        feasibleDelta c.current app ((othersOf app).map c.current).sum
          (appliedDelta c app δ) = true ∧
        (appliedDelta c app δ).natAbs ≤ δ.natAbs ∧
        (0 < δ → 0 < appliedDelta c app δ) ∧
        (δ < 0 → appliedDelta c app δ < 0)) ∧
      (∀ k : ℤ, k.natAbs ≤ δ.natAbs → (appliedDelta c app δ).natAbs < k.natAbs →
        (0 < δ → 0 < k) → (δ < 0 → k < 0) →
        feasibleDelta c.current app ((othersOf app).map c.current).sum k = false)) := by
  cases hp : parseApproach s with
  | none =>
    have hmem : s ∉ (["N", "E", "S", "W"] : List String) :=
      (parseApproach_eq_none_iff s).mp hp
    unfold SignalController.applyAdjustment
    rw [hp]
    refine ⟨Iff.intro (fun _ => hmem) (fun _ => rfl), fun _ => rfl, ?_⟩
    intro app happ
    exact Option.noConfusion happ
  | some app =>
    have hmem : ¬(s ∉ (["N", "E", "S", "W"] : List String)) := by
      intro hn
      rw [(parseApproach_eq_none_iff s).mpr hn] at hp
      cases hp
    unfold SignalController.applyAdjustment
    rw [hp]
    dsimp only
    refine ⟨iff_of_false (by simp [isErrorResult]) hmem, fun hn => absurd hn hmem, ?_⟩
    intro app' happ'
    have happeq : app' = app := (Option.some_injective _ happ').symm
    subst happeq
    have hcd := clampDelta_spec c.current app' ((othersOf app').map c.current).sum δ
    refine ⟨rfl, rfl, ?_, hcd.1, hcd.2⟩
    intro h0
    rw [applyKnown_of_appliedDelta_zero c app' δ h0]
    exact ⟨rfl, rfl⟩

/-- Concrete instantiation of the error/degrade theorem: an unknown
approach "Z" errors with the state untouched; the known approach "S"
never errors. -/
theorem applyAdjustment_error_and_degrade_witness :
    isErrorResult (defaultController.applyAdjustment "Z" 5).1 = true ∧
    (defaultController.applyAdjustment "Z" 5).2 = defaultController ∧
    isErrorResult (defaultController.applyAdjustment "S" 20).1 = false :=
  ⟨(applyAdjustment_error_and_degrade defaultController "Z" 5).1.mpr (by decide),
   (applyAdjustment_error_and_degrade defaultController "Z" 5).2.1 (by decide),
   ((applyAdjustment_error_and_degrade defaultController "S" 20).2.2 Approach.S
     (by decide)).1⟩
